import Mathlib

/-!
Verification of the dashboard panel data loader
(`src/web/src/composables/dashboard/usePanelDataLoader.ts`).

Shallow embedding: each function of the source file is translated into a
Lean definition over exact rational / natural / string data. JS numbers
are modelled as rationals, JS strings as Lean strings (comparisons on
code points), nullish values as `Option`, thrown exceptions as an
explicit error component.
-/

namespace PanelDataLoader

/-- A discretized interval bucket, the value/unit pair returned by
`formatInterval` in the source. -/
structure IntervalSpec where
  value : ℕ
  unit : String
deriving DecidableEq, Repr

/-- Embedding of `formatInterval` (source lines 21-116): the chain of
`case interval <= N` branches of the switch, in source order, ending with
the strict `interval < 3628800000` branch and the 1-year default. -/
def formatInterval (interval : ℚ) : IntervalSpec :=
  if interval ≤ 10 then ⟨1, "ms"⟩
  else if interval ≤ 15 then ⟨10, "ms"⟩
  else if interval ≤ 35 then ⟨20, "ms"⟩
  else if interval ≤ 75 then ⟨50, "ms"⟩
  else if interval ≤ 150 then ⟨100, "ms"⟩
  else if interval ≤ 350 then ⟨200, "ms"⟩
  else if interval ≤ 750 then ⟨500, "ms"⟩
  else if interval ≤ 1500 then ⟨1, "s"⟩
  else if interval ≤ 3500 then ⟨2, "s"⟩
  else if interval ≤ 7500 then ⟨5, "s"⟩
  else if interval ≤ 12500 then ⟨10, "s"⟩
  else if interval ≤ 17500 then ⟨15, "s"⟩
  else if interval ≤ 25000 then ⟨20, "s"⟩
  else if interval ≤ 45000 then ⟨30, "s"⟩
  else if interval ≤ 90000 then ⟨1, "m"⟩
  else if interval ≤ 210000 then ⟨2, "m"⟩
  else if interval ≤ 450000 then ⟨5, "m"⟩
  else if interval ≤ 750000 then ⟨10, "m"⟩
  else if interval ≤ 1050000 then ⟨15, "m"⟩
  else if interval ≤ 1500000 then ⟨20, "m"⟩
  else if interval ≤ 2700000 then ⟨30, "m"⟩
  else if interval ≤ 5400000 then ⟨1, "h"⟩
  else if interval ≤ 9000000 then ⟨2, "h"⟩
  else if interval ≤ 16200000 then ⟨3, "h"⟩
  else if interval ≤ 32400000 then ⟨6, "h"⟩
  else if interval ≤ 86400000 then ⟨12, "h"⟩
  else if interval ≤ 172800000 then ⟨24, "h"⟩
  else if interval ≤ 604800000 then ⟨24, "h"⟩
  else if interval ≤ 1814400000 then ⟨1, "w"⟩
  else if interval < 3628800000 then ⟨30, "d"⟩
  else ⟨1, "y"⟩

/-- The fixed breakpoint table of the specification: upper bounds (all
non-strict) paired with their canonical buckets, in ascending order.
The final strict bound for the 30d bucket and the 1y fallback are handled
by `formatIntervalSpec`. -/
def leBreakpoints : List (ℚ × IntervalSpec) :=
  [(10, ⟨1, "ms"⟩), (15, ⟨10, "ms"⟩), (35, ⟨20, "ms"⟩), (75, ⟨50, "ms"⟩),
   (150, ⟨100, "ms"⟩), (350, ⟨200, "ms"⟩), (750, ⟨500, "ms"⟩),
   (1500, ⟨1, "s"⟩), (3500, ⟨2, "s"⟩), (7500, ⟨5, "s"⟩), (12500, ⟨10, "s"⟩),
   (17500, ⟨15, "s"⟩), (25000, ⟨20, "s"⟩), (45000, ⟨30, "s"⟩),
   (90000, ⟨1, "m"⟩), (210000, ⟨2, "m"⟩), (450000, ⟨5, "m"⟩),
   (750000, ⟨10, "m"⟩), (1050000, ⟨15, "m"⟩), (1500000, ⟨20, "m"⟩),
   (2700000, ⟨30, "m"⟩), (5400000, ⟨1, "h"⟩), (9000000, ⟨2, "h"⟩),
   (16200000, ⟨3, "h"⟩), (32400000, ⟨6, "h"⟩), (86400000, ⟨12, "h"⟩),
   (172800000, ⟨24, "h"⟩), (604800000, ⟨24, "h"⟩), (1814400000, ⟨1, "w"⟩)]

/-- First breakpoint of the table whose upper bound is at least the raw
interval, if any. -/
def firstLeBucket (i : ℚ) : List (ℚ × IntervalSpec) → Option IntervalSpec
  | [] => none
  | p :: rest => if i ≤ p.1 then some p.2 else firstLeBucket i rest

/-- The bucketing rule as the specification words it: pick the first
breakpoint whose upper bound is at least the raw interval; the 30d bucket
has the strict upper bound 3628800000; if nothing matches, fall back to
the 1-year bucket. Written from the spec, to be compared with
`formatInterval` written from the source. -/
def formatIntervalSpec (i : ℚ) : IntervalSpec :=
  (firstLeBucket i leBreakpoints).getD (if i < 3628800000 then ⟨30, "d"⟩ else ⟨1, "y"⟩)

/-- Every bucket the fixed table can produce (including the strict-bound
30d bucket and the 1y fallback). -/
def allIntervalBuckets : List IntervalSpec :=
  (leBreakpoints.map (fun p => p.2)) ++ [⟨30, "d"⟩, ⟨1, "y"⟩]

/-- Embedding of `getTimeInSecondsBasedOnUnit` (source lines 118-137),
with the multiplications written exactly as in the source. -/
def getTimeInSecondsBasedOnUnit (seconds : ℚ) (unit : String) : ℚ :=
  if unit = "ms" then seconds / 1000
  else if unit = "s" then seconds
  else if unit = "m" then seconds * 60
  else if unit = "h" then seconds * 60 * 60
  else if unit = "d" then seconds * 60 * 60 * 24
  else if unit = "w" then seconds * 60 * 60 * 24 * 7
  else if unit = "y" then seconds * 60 * 60 * 24 * 7 * 12
  else seconds

/-- Scrape interval resolution (source line 431):
`store.state.organizationData.organizationSettings.scrape_interval ?? 15`.
The organization setting is nullish-coalesced to 15. -/
def scrapeIntervalOf (setting : Option ℚ) : ℚ := setting.getD 15

/-- Rate interval (source line 445):
`Math.max(getTimeInSecondsBasedOnUnit(value, unit) + scrapeInterval, 4 * scrapeInterval)`. -/
def rateInterval (s : IntervalSpec) (setting : Option ℚ) : ℚ :=
  max (getTimeInSecondsBasedOnUnit (s.value : ℚ) s.unit + scrapeIntervalOf setting)
    (4 * scrapeIntervalOf setting)

/-- The divisor used for the raw interval (source line 434):
`chartPanelRef.value?.offsetWidth ?? 1000`. Only a nullish width is
replaced (by 1000); a zero or negative width is used as-is. -/
def intervalDivisor (offsetWidth : Option ℤ) : ℤ := offsetWidth.getD 1000

/-- Raw interval (source line 434):
`((endISOTimestamp - startISOTimestamp) / (chartPanelRef.value?.offsetWidth ?? 1000)) / 1000`.
Rational division; a zero divisor (reachable, see `intervalDivisor`) is
the degenerate JS division-by-zero case. -/
def rawInterval (rangeMillis : ℚ) (offsetWidth : Option ℤ) : ℚ :=
  rangeMillis / (intervalDivisor offsetWidth : ℚ) / 1000

/-- Embedding of `formateRateInterval` (source lines 139-154) for a
non-negative integer number of seconds: `Math.floor` on non-negative
values is natural division, `%` is natural mod. The string is built by
successive appends exactly as the source does. -/
def formateRateInterval (interval : ℕ) : String :=
  let s0 : String := ""
  let days := interval / (3600 * 24)
  let s1 := if days > 0 then s0 ++ toString days ++ "d" else s0
  let hours := (interval % (3600 * 24)) / 3600
  let s2 := if hours > 0 then s1 ++ toString hours ++ "h" else s1
  let minutes := (interval % 3600) / 60
  let s3 := if minutes > 0 then s2 ++ toString minutes ++ "m" else s2
  let remainingSeconds := interval % 60
  if remainingSeconds > 0 then s3 ++ toString remainingSeconds ++ "s" else s3

/-- One component of the compact duration rendering: the number followed
by its unit letter when non-zero, empty otherwise. -/
def durationComponent (n : ℕ) (u : String) : String :=
  if n > 0 then toString n ++ u else ""

/-- The compact duration string as the specification words it: only the
non-zero components, in order days, hours, minutes, seconds, each
suffixed with its unit letter, concatenated with no separators. The
components are the Euclidean decomposition of the total seconds. -/
def renderDuration (n : ℕ) : String :=
  durationComponent (n / 86400) "d" ++ durationComponent (n / 3600 % 24) "h" ++
    durationComponent (n / 60 % 60) "m" ++ durationComponent (n % 60) "s"

/-- Fuel-indexed left-to-right replace-all over character lists, the
semantics of the JS `String.prototype.replaceAll` used by the source for
the always-nonempty tokens of the shape dollar-plus-name: whenever the
pattern is a prefix of the remaining text, emit the replacement and skip
the pattern; otherwise keep one character and continue. With fuel at
least the text length and a nonempty pattern the fuel never runs out. -/
def replaceAllAux (pat rep : List Char) : ℕ → List Char → List Char
  | 0, l => l
  | _ + 1, [] => []
  | fuel + 1, c :: cs =>
    if pat.isPrefixOf (c :: cs) then
      rep ++ replaceAllAux pat rep fuel ((c :: cs).drop pat.length)
    else
      c :: replaceAllAux pat rep fuel cs

/-- Replace every occurrence of `pat` in `l` by `rep`. -/
def replaceAll (pat rep l : List Char) : List Char :=
  replaceAllAux pat rep l.length l

/-- JS `query.replaceAll(pattern, replacement)` on strings. -/
def replaceAllStr (pat rep s : String) : String :=
  ⟨replaceAll pat.toList rep.toList s.toList⟩

/-- JS `query.includes(token)`: substring containment. -/
def includesTok (q tok : String) : Bool :=
  decide (tok.toList <:+: q.toList)

/-- One entry of the substitution ledger pushed by `replaceQueryValue`
(source lines 466-493): a type tag, the variable name and its value. -/
structure MetadataEntry where
  entryType : String
  name : String
  value : String
deriving DecidableEq, Repr

/-- One iteration of the forEach loops of `replaceQueryValue` (source
lines 466-477 for fixed variables, 482-493 for bound variables): if the
query contains the token dollar-plus-name, push one ledger entry; then
unconditionally replace all occurrences of the token by the value. -/
def substituteVariable (entryType : String) (q : String) (name value : String)
    (metadata : List MetadataEntry) : String × List MetadataEntry :=
  let variableName := "$" ++ name
  let md := if includesTok q variableName then metadata ++ [⟨entryType, name, value⟩]
    else metadata
  (replaceAllStr variableName value q, md)

/-- A template variable binding as read from the external variable store:
name, stringified value, kind tag (the source compares it with the
string "ad-hoc-filters"), and the loading flag. -/
structure TemplateVariable where
  name : String
  value : String
  varType : String
  isLoading : Bool
deriving DecidableEq, Repr

/-- The dependent-variable filter the source repeats in
`isQueryDependentOnTheVariables`, `canRunQueryBasedOnVariables` (lines
373-400) and the variables watcher (lines 657-664): variables whose kind
is not "ad-hoc-filters" and whose token appears in at least one
sub-query, computed as `map (includes) ... contains true`. -/
def dependentVariables (vars : List TemplateVariable) (queries : List String) :
    List TemplateVariable :=
  (vars.filter (fun it => it.varType != "ad-hoc-filters")).filter
    (fun it => (queries.map (fun q => includesTok q ("$" ++ it.name))).contains true)

/-- Embedding of `isQueryDependentOnTheVariables` (source lines 373-382):
the dependent-variable list is non-empty. -/
def isQueryDependentOnTheVariables (vars : List TemplateVariable)
    (queries : List String) : Bool :=
  decide (0 < (dependentVariables vars queries).length)

/-- Embedding of `canRunQueryBasedOnVariables` (source lines 389-415):
when there are dependent variables, the ones with `isLoading` false must
be all of them; with no dependent variables the query can always run. -/
def canRunQueryBasedOnVariables (vars : List TemplateVariable)
    (queries : List String) : Bool :=
  let deps := dependentVariables vars queries
  if 0 < deps.length then
    decide ((deps.filter (fun it => !it.isLoading)).length = deps.length)
  else
    true

/-- Embedding of the bound-variable part of the variables watcher, the
`shouldITriggerTheQueryForOtherVariables` closure (source lines 655-687):
with no dependent variables, no trigger; otherwise a variable counts as
unchanged only when its value equals the value of the same-named variable
of the previous baseline and that previous value is non-empty (a missing
previous variable never counts as unchanged, as in JS where comparing a
string against undefined is false); the trigger fires when not all
variables count as unchanged. -/
def shouldITriggerTheQueryForOtherVariables (newVars oldVars : List TemplateVariable)
    (queries : List String) : Bool :=
  let newDeps := dependentVariables newVars queries
  if newDeps.isEmpty then false
  else
    let isAllValuesSame := newDeps.all (fun it =>
      match oldVars.find? (fun it2 => it2.name == it.name) with
      | some oldValue => it.value == oldValue.value && oldValue.value != ""
      | none => false)
    !isAllValuesSame

/-- The externally selected time object (source line 202): each bound is
absent (nullish or falsy, modelled as `none`) or a date-like value whose
string form the source compares against "Invalid Date". -/
structure TimeObj where
  startTime : Option String
  endTime : Option String
deriving DecidableEq, Repr

/-- The readiness test of source lines 205-210: both bounds present and
neither equal to "Invalid Date". -/
def validTime (t : TimeObj) : Bool :=
  t.startTime.isSome && t.endTime.isSome &&
    t.startTime != some "Invalid Date" && t.endTime != some "Invalid Date"

/-- The externally observed reactive state of the loader (source lines
162-167), with the result and metadata payloads kept as type
parameters. -/
structure PState (α β : Type) where
  data : α
  loading : Bool
  errorDetail : String
  metadata : β
deriving DecidableEq, Repr

/-- Outcome of the synchronous prefix of one `loadData` invocation:
gated on a loading dependent variable, aborted on a not-ready time
range, or dispatched (with the number of sub-query service calls). -/
inductive LoadResult
  | gatedOnVariables
  | gatedOnTime
  | dispatched (calls : ℕ)
deriving DecidableEq, Repr

/-- The inputs one `loadData` invocation reads: the variable-store
snapshot (`variablesData.value.values`), the sub-query texts and the
selected time object. -/
structure LoadInput where
  values : List TemplateVariable
  queries : List String
  timeObj : TimeObj
deriving DecidableEq, Repr

/-- Synchronous prefix of `loadData` (source lines 190-225): clear the
dirty flag (the returned Bool is the new dirty value, always false);
return before touching any state if a dependent variable is loading
(lines 197-199); return before touching any state if the time range is
not ready (lines 205-217); otherwise set `loading` to true (line 219)
and dispatch one execution-service call per sub-query. The fan-in that
follows the dispatched calls is modelled separately by `finishLoad`. -/
def loadDataStep {α β : Type} (s : PState α β) (inp : LoadInput) :
    PState α β × Bool × LoadResult :=
  if isQueryDependentOnTheVariables inp.values inp.queries &&
      !canRunQueryBasedOnVariables inp.values inp.queries then
    (s, false, LoadResult.gatedOnVariables)
  else if !validTime inp.timeObj then
    (s, false, LoadResult.gatedOnTime)
  else
    ({ s with loading := true }, false, LoadResult.dispatched inp.queries.length)

/-- The value a successful sub-query promise settles with (source lines
261 and 332): an object holding the service result and the per-query
metadata. A failed sub-query settles with `undefined` because its catch
handler returns nothing; the settled list therefore holds options. -/
structure SettledValue (ρ μ : Type) where
  result : ρ
  metadata : μ
deriving DecidableEq, Repr

/-- JS member access in `queryResults.map((it) => it.result)` (source
lines 273 and 343): reading `result` from `undefined` throws a
TypeError, modelled as the error case. -/
def mapResultField {ρ μ : Type} : List (Option (SettledValue ρ μ)) →
    Except String (List ρ)
  | [] => Except.ok []
  | some v :: rest => (mapResultField rest).map (fun ds => v.result :: ds)
  | none :: rest =>
    let _ := rest
    Except.error "TypeError: cannot read properties of undefined"

/-- JS member access in `queryResults.map((it) => it.metadata)` (source
lines 275 and 345). -/
def mapMetadataField {ρ μ : Type} : List (Option (SettledValue ρ μ)) →
    Except String (List μ)
  | [] => Except.ok []
  | some v :: rest => (mapMetadataField rest).map (fun ms => v.metadata :: ms)
  | none :: rest =>
    let _ := rest
    Except.error "TypeError: cannot read properties of undefined"

/-- Fan-in tail of `loadData` after `Promise.all` settles (source lines
271-276 and 341-346): set `loading` to false, then overwrite `data`
with the mapped result fields and `metadata` with the mapped metadata
fields. A TypeError while mapping escapes `loadData` (second component);
assignments after the throw never happen. -/
def finishLoad {ρ μ : Type} (s : PState (List ρ) (List μ))
    (results : List (Option (SettledValue ρ μ))) :
    PState (List ρ) (List μ) × Option String :=
  let s1 := { s with loading := false }
  match mapResultField results with
  | Except.error e => (s1, some e)
  | Except.ok ds =>
    match mapMetadataField results with
    | Except.error e => ({ s1 with data := ds }, some e)
    | Except.ok ms => ({ s1 with data := ds, metadata := ms }, none)

/-- Error-message truncation of `processApiError` (source lines 596-611):
messages longer than 300 code points are cut to 300 and get the ellipsis
suffix. -/
def trimErrorMessage (m : String) : String :=
  if 300 < m.length then m.take 300 ++ " ..." else m

/-- One handler execution during a fetch attempt, in settle order: a
success handler (source lines 258-262 and 328-333) or a failure handler
running `processApiError` (source lines 263-266, 334-337 and 592-617)
with the extracted error message. -/
inductive SettleEvent
  | success
  | failure (msg : String)
deriving DecidableEq, Repr

/-- Effect of one handler on the shared `errorDetail`: every success
handler assigns the empty string, every failure handler assigns its
truncated message. -/
def applySettle (errorDetail : String) : SettleEvent → String
  | SettleEvent.success => ""
  | SettleEvent.failure m =>
    let _ := errorDetail
    trimErrorMessage m

/-- The shared `errorDetail` after the handlers of one fetch attempt ran
in the given settle order. -/
def runSettles (init : String) (events : List SettleEvent) : String :=
  events.foldl applySettle init

/-! Helper lemmas shared by the claim theorems. -/

theorem getD_ite (c : Prop) [Decidable c] (a : IntervalSpec) (o : Option IntervalSpec)
    (d : IntervalSpec) :
    Option.getD (if c then some a else o) d = if c then a else Option.getD o d := by
  split <;> rfl

set_option maxHeartbeats 1000000 in
theorem formatInterval_eq_spec : ∀ i : ℚ, formatInterval i = formatIntervalSpec i := by
  intro i
  rw [formatIntervalSpec, leBreakpoints]
  simp only [firstLeBucket, getD_ite, Option.getD_none]
  rfl

theorem firstLeBucket_mem (i : ℚ) :
    ∀ (l : List (ℚ × IntervalSpec)) (s : IntervalSpec),
      firstLeBucket i l = some s → s ∈ l.map Prod.snd := by
  intro l
  induction l with
  | nil => intro s h; simp [firstLeBucket] at h
  | cons p rest ih =>
    intro s h
    rw [firstLeBucket] at h
    by_cases hc : i ≤ p.1
    · rw [if_pos hc] at h
      simp only [List.map_cons, List.mem_cons]
      exact Or.inl (Option.some.inj h).symm
    · rw [if_neg hc] at h
      simp only [List.map_cons, List.mem_cons]
      exact Or.inr (ih s h)

theorem replaceAllAux_of_not_infix (pat rep : List Char) :
    ∀ (fuel : ℕ) (l : List Char), ¬ pat <:+: l → replaceAllAux pat rep fuel l = l := by
  intro fuel
  induction fuel with
  | zero => intro l _; rfl
  | succ n ih =>
    intro l h
    cases l with
    | nil => rfl
    | cons c cs =>
      rw [replaceAllAux, if_neg, ih cs (fun hinf => h (List.infix_cons hinf))]
      intro hpre
      exact h (List.isPrefixOf_iff_prefix.mp hpre).isInfix

theorem replaceAll_of_not_infix (pat rep l : List Char) (h : ¬ pat <:+: l) :
    replaceAll pat rep l = l :=
  replaceAllAux_of_not_infix pat rep l.length l h

theorem length_filter_lt_of_mem {α : Type} (p : α → Bool) (l : List α) (x : α)
    (hx : x ∈ l) (hpx : p x = false) : (l.filter p).length < l.length := by
  induction l with
  | nil => cases hx
  | cons a t ih =>
    rcases List.mem_cons.mp hx with rfl | hmem
    · rw [List.filter_cons, hpx]
      exact Nat.lt_succ_of_le (List.length_filter_le p t)
    · rw [List.filter_cons]
      cases hpa : p a
      · exact Nat.lt_succ_of_lt (ih hmem)
      · simpa using Nat.succ_lt_succ (ih hmem)

theorem contains_true_of_mem {l : List Bool} (h : true ∈ l) : l.contains true = true :=
  List.elem_iff.mpr h

theorem mem_dependentVariables {v : TemplateVariable} {vars : List TemplateVariable}
    {queries : List String} (hv : v ∈ vars) (ht : v.varType ≠ "ad-hoc-filters")
    (hq : ∃ q ∈ queries, includesTok q ("$" ++ v.name) = true) :
    v ∈ dependentVariables vars queries := by
  rw [dependentVariables]
  refine List.mem_filter.mpr ⟨List.mem_filter.mpr ⟨hv, ?_⟩, ?_⟩
  · exact bne_iff_ne.mpr ht
  · rcases hq with ⟨q, hqmem, hqinc⟩
    exact contains_true_of_mem (List.mem_map.mpr ⟨q, hqmem, hqinc⟩)

theorem foldl_applySettle_success :
    ∀ (post : List SettleEvent), (∀ e ∈ post, e = SettleEvent.success) →
      List.foldl applySettle "" post = "" := by
  intro post
  induction post with
  | nil => intro _; rfl
  | cons e t ih =>
    intro h
    have he : e = SettleEvent.success := h e (List.mem_cons_self e t)
    subst he
    exact ih (fun x hx => h x (List.mem_cons_of_mem _ hx))

/-! Claim theorems. -/

/-- C1 (code_bug evidence). The claim states partial-failure isolation:
with two sub-queries where exactly one service call rejects, the fetch
attempt completes, the published data array has one populated and one
absent entry, and no exception escapes `loadData`. The code instead
throws: the catch handler settles a failed sub-query with `undefined`,
and `queryResults.map((it) => it.result)` reads `result` from
`undefined`. Evaluating the fan-in tail at such an input: `loading` has
already been set false, a TypeError escapes, and `data` and `metadata`
are never overwritten. -/
theorem c1_partial_failure_throws :
    ∀ (s : PState (List String) (List String)) (v : SettledValue String String),
      (finishLoad s [some v, none]).2 =
          some "TypeError: cannot read properties of undefined" ∧
        (finishLoad s [some v, none]).1.loading = false ∧
        (finishLoad s [some v, none]).1.data = s.data ∧
        (finishLoad s [some v, none]).1.metadata = s.metadata := by
  intro s v
  exact ⟨rfl, rfl, rfl, rfl⟩

/-- C2. `formatInterval` agrees with the first-matching-breakpoint rule
of the fixed table everywhere (the table ends with the two consecutive
24h buckets, the strict bound for the 30d bucket and the 1y fallback),
and boundary inputs select the documented bucket: 1500 gives 1s (not
2s), 172800000 and 604800000 both give 24h, 1814400000 gives 1w,
3628799999 gives 30d and 3628800000 falls through to 1y. -/
theorem c2_format_interval_table :
    (∀ i : ℚ, formatInterval i = formatIntervalSpec i) ∧
      formatInterval 1500 = ⟨1, "s"⟩ ∧
      formatInterval 172800000 = ⟨24, "h"⟩ ∧
      formatInterval 604800000 = ⟨24, "h"⟩ ∧
      formatInterval 1814400000 = ⟨1, "w"⟩ ∧
      formatInterval 3628799999 = ⟨30, "d"⟩ ∧
      formatInterval 3628800000 = ⟨1, "y"⟩ := by
  refine ⟨formatInterval_eq_spec, ?_, ?_, ?_, ?_, ?_, ?_⟩ <;> norm_num [formatInterval]

/-- C3 counterexample. The claim states that a dependent variable whose
previous baseline value is the empty string makes the change decision
report no change. At a concrete input with exactly that shape (previous
value empty, new value different) the decision reports a change: the
source counts a variable as unchanged only when the previous value is
non-empty, so an empty previous value forces `isAllValuesSame` to false
and the trigger fires. -/
theorem c3_empty_previous_reports_change :
    shouldITriggerTheQueryForOtherVariables
        [⟨"v", "new", "query_values", false⟩]
        [⟨"v", "", "query_values", false⟩]
        ["select $v"] = true := by
  decide

/-- C3 amended. For every dependent variable whose value in the previous
baseline snapshot is the empty string, the bound-variable change
decision reports a change (the variable never counts as unchanged),
regardless of the new value. -/
theorem c3_empty_previous_triggers :
    ∀ (newVars oldVars : List TemplateVariable) (queries : List String)
      (v oldValue : TemplateVariable),
      v ∈ dependentVariables newVars queries →
      oldVars.find? (fun it2 => it2.name == v.name) = some oldValue →
      oldValue.value = "" →
      shouldITriggerTheQueryForOtherVariables newVars oldVars queries = true := by
  intro newVars oldVars queries v oldValue hmem hfind hempty
  rw [shouldITriggerTheQueryForOtherVariables]
  rw [if_neg (fun hemp => by
    rw [List.isEmpty_iff] at hemp
    exact absurd (hemp ▸ hmem) (List.not_mem_nil v))]
  rw [Bool.not_eq_true']
  rw [List.all_eq_false]
  refine ⟨v, hmem, ?_⟩
  simp [hfind, hempty]

/-- C3 amended witness. -/
theorem c3_empty_previous_triggers_witness :
    shouldITriggerTheQueryForOtherVariables
        [⟨"reg", "b", "query_values", false⟩]
        [⟨"reg", "", "query_values", false⟩]
        ["from t where x = $reg"] = true :=
  c3_empty_previous_triggers
    [⟨"reg", "b", "query_values", false⟩]
    [⟨"reg", "", "query_values", false⟩]
    ["from t where x = $reg"]
    ⟨"reg", "b", "query_values", false⟩
    ⟨"reg", "", "query_values", false⟩
    (by decide) (by decide) rfl

/-- C4 counterexample. The claim states the raw interval divides the
range by `max(viewportPixels, 1)`, so the degenerate division is
unreachable. The source divisor is `offsetWidth ?? 1000`: a zero width
is not nullish, so it is used as-is and differs from the claimed
guard. -/
theorem c4_zero_width_not_guarded :
    intervalDivisor (some 0) = 0 ∧ intervalDivisor (some 0) ≠ max 0 1 := by
  exact ⟨rfl, by decide⟩

/-- C4 amended. The bucketing itself is total: `formatInterval` returns
a bucket of the fixed table for every rational raw interval. But the
divisor is not `max(viewportPixels, 1)`: it is the panel width when
present (even when zero or negative) and 1000 when the width is nullish,
and the raw interval carries a further division by 1000 (milliseconds to
seconds). -/
theorem c4_interval_total :
    (∀ i : ℚ, formatInterval i ∈ allIntervalBuckets) ∧
      intervalDivisor none = 1000 ∧
      (∀ w : ℤ, intervalDivisor (some w) = w) ∧
      (∀ (range : ℚ) (w : Option ℤ),
        rawInterval range w = range / (intervalDivisor w : ℚ) / 1000) := by
  refine ⟨?_, rfl, fun w => rfl, fun range w => rfl⟩
  intro i
  rw [formatInterval_eq_spec i, formatIntervalSpec, allIntervalBuckets]
  cases h : firstLeBucket i leBreakpoints with
  | some s =>
    simp only [Option.getD_some]
    exact List.mem_append_left _ (firstLeBucket_mem i _ s h)
  | none =>
    simp only [Option.getD_none]
    refine List.mem_append_right _ ?_
    split <;> decide

/-- C5. The rate window is
`max(bucketSeconds + scrapeIntervalSeconds, 4 * scrapeIntervalSeconds)`
with the scrape interval defaulting to 15 when the organization setting
is unset, and the unit conversion follows the table ms = 1/1000, s = 1,
m = 60, h = 3600, d = 86400, w = 604800, y = 7257600 (the legacy
non-calendar year written `60 * 60 * 24 * 7 * 12` in the source). -/
theorem c5_rate_window :
    (∀ v : ℚ,
      getTimeInSecondsBasedOnUnit v "ms" = v / 1000 ∧
        getTimeInSecondsBasedOnUnit v "s" = v ∧
        getTimeInSecondsBasedOnUnit v "m" = v * 60 ∧
        getTimeInSecondsBasedOnUnit v "h" = v * 3600 ∧
        getTimeInSecondsBasedOnUnit v "d" = v * 86400 ∧
        getTimeInSecondsBasedOnUnit v "w" = v * 604800 ∧
        getTimeInSecondsBasedOnUnit v "y" = v * 7257600) ∧
      scrapeIntervalOf none = 15 ∧
      (∀ setting : Option ℚ, ∀ s : IntervalSpec,
        rateInterval s setting =
          max (getTimeInSecondsBasedOnUnit (s.value : ℚ) s.unit + Option.getD setting 15)
            (4 * Option.getD setting 15)) := by
  refine ⟨?_, rfl, fun setting s => rfl⟩
  intro v
  refine ⟨rfl, rfl, ?_, ?_, ?_, ?_, ?_⟩
  · have e : getTimeInSecondsBasedOnUnit v "m" = v * 60 := rfl
    rw [e]
  · have e : getTimeInSecondsBasedOnUnit v "h" = v * 60 * 60 := rfl
    rw [e]; ring
  · have e : getTimeInSecondsBasedOnUnit v "d" = v * 60 * 60 * 24 := rfl
    rw [e]; ring
  · have e : getTimeInSecondsBasedOnUnit v "w" = v * 60 * 60 * 24 * 7 := rfl
    rw [e]; ring
  · have e : getTimeInSecondsBasedOnUnit v "y" = v * 60 * 60 * 24 * 7 * 12 := rfl
    rw [e]; ring

/-- C6. One substitution step over one variable (fixed or bound):
exactly one ledger entry is appended when and only when the token
dollar-plus-name occurs in the query; when the token is absent the query
text is returned unchanged and the ledger is untouched. The concrete
cases of the specification: the bound variable region with value us-east
rewrites the query and records one entry of type variable, and
substituting the fixed `__interval_ms` variable into a query without the
token changes nothing. -/
theorem c6_substitution_ledger :
    (∀ (entryType q name value : String) (md : List MetadataEntry),
      (includesTok q ("$" ++ name) = true →
        (substituteVariable entryType q name value md).2 =
          md ++ [⟨entryType, name, value⟩]) ∧
      (includesTok q ("$" ++ name) = false →
        (substituteVariable entryType q name value md).1 = q ∧
          (substituteVariable entryType q name value md).2 = md)) ∧
      substituteVariable "variable" "SELECT * FROM t WHERE r=$region" "region" "us-east" [] =
        ("SELECT * FROM t WHERE r=us-east", [⟨"variable", "region", "us-east"⟩]) ∧
      substituteVariable "fixed" "SELECT 1" "__interval_ms" "5000ms" [] = ("SELECT 1", []) := by
  refine ⟨?_, by decide, by decide⟩
  intro entryType q name value md
  constructor
  · intro h
    rw [substituteVariable]
    simp only [h, if_true]
  · intro h
    have hninf : ¬ ("$" ++ name).toList <:+: q.toList := by
      intro hinf
      rw [includesTok, decide_eq_false_iff_not] at h
      exact h hinf
    constructor
    · rw [substituteVariable]
      simp only []
      rw [replaceAllStr, replaceAll_of_not_infix _ _ _ hninf]
      rfl
    · rw [substituteVariable]
      simp [h]

/-- C6 witness. -/
theorem c6_substitution_ledger_witness :
    (substituteVariable "variable" "a=$x" "x" "y" []).2 = [⟨"variable", "x", "y"⟩] ∧
      (substituteVariable "variable" "a=b" "x" "y" []).1 = "a=b" :=
  ⟨(c6_substitution_ledger.1 "variable" "a=$x" "x" "y" []).1 (by decide),
    ((c6_substitution_ledger.1 "variable" "a=b" "x" "y" []).2 (by decide)).1⟩

/-- C7. The dependency gate: whenever some non-ad-hoc variable whose
token occurs in at least one sub-query has its loading flag set, a
`loadData` invocation (the only path into fetching) leaves the state
untouched (in particular `loading` is not set to true) and dispatches no
execution-service call; it only clears the dirty flag. Ad-hoc variables
are filtered out of the dependent set, so they never block. -/
theorem c7_dependency_gate :
    ∀ {α β : Type} (s : PState α β) (inp : LoadInput) (v : TemplateVariable),
      v ∈ inp.values → v.varType ≠ "ad-hoc-filters" →
      (∃ q ∈ inp.queries, includesTok q ("$" ++ v.name) = true) →
      v.isLoading = true →
      loadDataStep s inp = (s, false, LoadResult.gatedOnVariables) := by
  intro α β s inp v hv ht hq hl
  have hdep : v ∈ dependentVariables inp.values inp.queries :=
    mem_dependentVariables hv ht hq
  have hpos : 0 < (dependentVariables inp.values inp.queries).length :=
    List.length_pos.mpr (List.ne_nil_of_mem hdep)
  have hlt : ((dependentVariables inp.values inp.queries).filter
      (fun it => !it.isLoading)).length <
      (dependentVariables inp.values inp.queries).length := by
    refine length_filter_lt_of_mem _ _ v hdep ?_
    rw [hl]
    rfl
  have hdep_true : isQueryDependentOnTheVariables inp.values inp.queries = true := by
    rw [isQueryDependentOnTheVariables]
    exact decide_eq_true hpos
  have hrun_false : canRunQueryBasedOnVariables inp.values inp.queries = false := by
    rw [canRunQueryBasedOnVariables]
    simp only [if_pos hpos]
    exact decide_eq_false (Nat.ne_of_lt hlt)
  rw [loadDataStep, hdep_true, hrun_false]
  rfl

/-- C7 witness. -/
theorem c7_dependency_gate_witness :
    loadDataStep (⟨["d"], false, "", ["m"]⟩ : PState (List String) (List String))
        ⟨[⟨"v", "x", "query_values", true⟩], ["select $v"], ⟨some "a", some "b"⟩⟩ =
      (⟨["d"], false, "", ["m"]⟩, false, LoadResult.gatedOnVariables) :=
  c7_dependency_gate ⟨["d"], false, "", ["m"]⟩
    ⟨[⟨"v", "x", "query_values", true⟩], ["select $v"], ⟨some "a", some "b"⟩⟩
    ⟨"v", "x", "query_values", true⟩
    (by decide) (by decide) ⟨"select $v", by decide, by decide⟩ rfl

/-- C8. Not-ready abort atomicity: when the selected time range has a
missing bound or an Invalid Date bound, the `loadData` invocation
returns with the state record (data, loading, errorDetail, metadata)
unchanged, the dirty flag cleared, and nothing dispatched, so no retry
happens until another triggering input change sets the dirty flag
again. -/
theorem c8_not_ready_abort :
    ∀ {α β : Type} (s : PState α β) (inp : LoadInput),
      validTime inp.timeObj = false →
      (loadDataStep s inp).1 = s ∧ (loadDataStep s inp).2.1 = false ∧
        ∀ n, (loadDataStep s inp).2.2 ≠ LoadResult.dispatched n := by
  intro α β s inp h
  rw [loadDataStep]
  split
  · exact ⟨rfl, rfl, fun n hn => by cases hn⟩
  · rw [h]
    exact ⟨rfl, rfl, fun n hn => by cases hn⟩

/-- C8 witness. -/
theorem c8_not_ready_abort_witness :
    validTime (TimeObj.mk none (some "b")) = false ∧
      (loadDataStep (⟨["d"], true, "err", ["m"]⟩ : PState (List String) (List String))
          ⟨[], ["select 1"], ⟨none, some "b"⟩⟩).1 = ⟨["d"], true, "err", ["m"]⟩ :=
  ⟨rfl,
    (c8_not_ready_abort (⟨["d"], true, "err", ["m"]⟩ : PState (List String) (List String))
      ⟨[], ["select 1"], ⟨none, some "b"⟩⟩ rfl).1⟩

/-- C9. The rate-window formatter agrees everywhere with the compact
duration rendering of the specification (only non-zero components, order
days, hours, minutes, seconds, unit letters, no separators), and the
documented examples hold: 90 gives 1m30s, 0 gives the empty string, 3661
gives 1h1m1s. -/
theorem c9_format_rate_interval :
    (∀ n : ℕ, formateRateInterval n = renderDuration n) ∧
      formateRateInterval 90 = "1m30s" ∧
      formateRateInterval 0 = "" ∧
      formateRateInterval 3661 = "1h1m1s" := by
  refine ⟨?_, by decide, by decide, by decide⟩
  intro n
  have h1 : n % (3600 * 24) / 3600 = n / 3600 % 24 := Nat.mod_mul_right_div_self n 3600 24
  have h2 : n % 3600 / 60 = n / 60 % 60 := Nat.mod_mul_right_div_self n 60 60
  have h3 : n / (3600 * 24) = n / 86400 := by norm_num
  simp only [formateRateInterval, renderDuration, durationComponent, h1, h2, h3]
  split_ifs <;> simp [String.append_assoc]

/-- C10. Every succeeding sub-query handler resets the shared
errorDetail to the empty string, so within one fetch attempt errorDetail
ends non-empty only when some failure handler runs after the last
success handler: when a success is followed only by successes the final
errorDetail is empty; in particular a success settling after a sibling
failure erases the recorded message; among several failures the last
writer wins; and a failure settling after a success leaves its truncated
message. -/
theorem c10_success_resets_error :
    (∀ (init : String) (pre post : List SettleEvent),
      (∀ e ∈ post, e = SettleEvent.success) →
      runSettles init (pre ++ SettleEvent.success :: post) = "") ∧
      (∀ init m : String,
        runSettles init [SettleEvent.failure m, SettleEvent.success] = "") ∧
      (∀ init m1 m2 : String,
        runSettles init [SettleEvent.failure m1, SettleEvent.failure m2] =
          trimErrorMessage m2) ∧
      runSettles "" [SettleEvent.success, SettleEvent.failure "boom"] = "boom" := by
  refine ⟨?_, fun init m => rfl, fun init m1 m2 => rfl, by decide⟩
  intro init pre post h
  rw [runSettles, List.foldl_append]
  show List.foldl applySettle "" post = ""
  exact foldl_applySettle_success post h

/-- C10 witness. -/
theorem c10_success_resets_error_witness :
    runSettles "old" [SettleEvent.failure "boom", SettleEvent.success, SettleEvent.success] = "" :=
  c10_success_resets_error.1 "old" [SettleEvent.failure "boom"] [SettleEvent.success]
    (fun e he => by
      cases List.mem_singleton.mp he
      rfl)

end PanelDataLoader
